import Mathlib

/-!
Verification of `llaine/nodejs-websocket-server` (src/server.js, src/index.js):
a small WebSocket (RFC 6455) server.  Buffers are embedded as `List Nat`
(byte values), failing operations as `Except String`, and the event-driven
connection state as explicit state passing.
-/

namespace WSServer

/-! ## Bytes and strings -/

/-- Node's `'ascii'` string encoding: one byte per UTF-16 code unit.  All
strings this server hashes are 7-bit ASCII, for which this is the identity on
code points (masked to a byte). -/
def asciiBytes (s : String) : List Nat :=
  s.data.map (fun c => c.toNat % 256)

/-! ## SHA-1 (crypto.createHash('sha1')), on byte lists -/

/-- Rotate a 32-bit word left by `n`. -/
def rotl32 (n x : Nat) : Nat :=
  ((x <<< n) ||| (x >>> (32 - n))) % 4294967296

/-- The SHA-1 round function for round `t`. -/
def sha1F (t b c d : Nat) : Nat :=
  if t < 20 then (b &&& c) ||| ((b ^^^ 4294967295) &&& d)
  else if t < 40 then b ^^^ c ^^^ d
  else if t < 60 then (b &&& c) ||| (b &&& d) ||| (c &&& d)
  else b ^^^ c ^^^ d

/-- The SHA-1 round constant for round `t`. -/
def sha1K (t : Nat) : Nat :=
  if t < 20 then 0x5A827999
  else if t < 40 then 0x6ED9EBA1
  else if t < 60 then 0x8F1BBCDC
  else 0xCA62C1D6

/-- SHA-1 padding: append `0x80`, zero bytes to 56 mod 64, then the bit
length as 8 big-endian bytes. -/
def sha1Pad (msg : List Nat) : List Nat :=
  let len := msg.length
  let bitLen := len * 8
  msg ++ [128] ++ List.replicate ((119 - len % 64) % 64) 0 ++
    [bitLen / 2 ^ 56 % 256, bitLen / 2 ^ 48 % 256, bitLen / 2 ^ 40 % 256,
     bitLen / 2 ^ 32 % 256, bitLen / 2 ^ 24 % 256, bitLen / 2 ^ 16 % 256,
     bitLen / 2 ^ 8 % 256, bitLen % 256]

/-- Group bytes into 32-bit big-endian words. -/
def bytesToWords : List Nat → List Nat
  | a :: b :: c :: d :: rest => (((a * 256 + b) * 256 + c) * 256 + d) :: bytesToWords rest
  | _ => []

/-- Split a word list into 16-word blocks (`fuel` bounds the recursion). -/
def chunks16 : Nat → List Nat → List (List Nat)
  | 0, _ => []
  | _, [] => []
  | fuel + 1, ws => ws.take 16 :: chunks16 fuel (ws.drop 16)

/-- Extend a 16-word block by one schedule word `W[t] = rotl1 (W[t-3] ^ W[t-8]
^ W[t-14] ^ W[t-16])`; iterated `fuel` times. -/
def sha1Extend : Nat → List Nat → List Nat
  | 0, w => w
  | fuel + 1, w =>
    sha1Extend fuel (w ++ [rotl32 1 ((w.getD (w.length - 3) 0) ^^^ (w.getD (w.length - 8) 0) ^^^
      (w.getD (w.length - 14) 0) ^^^ (w.getD (w.length - 16) 0))])

/-- One SHA-1 round on the five-word state. -/
def sha1Round (w : List Nat) (t : Nat) :
    Nat × Nat × Nat × Nat × Nat → Nat × Nat × Nat × Nat × Nat
  | (a, b, c, d, e) =>
    ((rotl32 5 a + sha1F t b c d + e + w.getD t 0 + sha1K t) % 4294967296,
     a, rotl32 30 b, c, d)

/-- Run rounds `t, t+1, …` for `fuel` steps. -/
def sha1Loop (w : List Nat) : Nat → Nat → Nat × Nat × Nat × Nat × Nat → Nat × Nat × Nat × Nat × Nat
  | 0, _, st => st
  | fuel + 1, t, st => sha1Loop w fuel (t + 1) (sha1Round w t st)

/-- Process one 16-word block, updating the five-word chaining state. -/
def sha1Block (h : List Nat) (block : List Nat) : List Nat :=
  let w := sha1Extend 64 block
  match sha1Loop w 80 0
      (h.getD 0 0, h.getD 1 0, h.getD 2 0, h.getD 3 0, h.getD 4 0) with
  | (a, b, c, d, e) =>
    [(h.getD 0 0 + a) % 4294967296, (h.getD 1 0 + b) % 4294967296,
     (h.getD 2 0 + c) % 4294967296, (h.getD 3 0 + d) % 4294967296,
     (h.getD 4 0 + e) % 4294967296]

/-- A 32-bit word as 4 big-endian bytes. -/
def wordBytes (x : Nat) : List Nat :=
  [x / 2 ^ 24 % 256, x / 2 ^ 16 % 256, x / 2 ^ 8 % 256, x % 256]

/-- SHA-1 of a byte list, as the 20 digest bytes. -/
def sha1 (msg : List Nat) : List Nat :=
  let words := bytesToWords (sha1Pad msg)
  let blocks := chunks16 words.length words
  (blocks.foldl sha1Block
    [0x67452301, 0xEFCDAB89, 0x98BADCFE, 0x10325476, 0xC3D2E1F0]).flatMap wordBytes

/-! ## Base64 (Buffer digest('base64')) -/

def base64Alphabet : String :=
  "ABCDEFGHIJKLMNOPQRSTUVWXYZabcdefghijklmnopqrstuvwxyz0123456789+/"

def b64Char (n : Nat) : Char :=
  base64Alphabet.data.getD n 'A'

/-- Standard base64 with `=` padding. -/
def base64Encode : List Nat → List Char
  | a :: b :: c :: rest =>
    b64Char (a / 4) :: b64Char (a % 4 * 16 + b / 16) ::
      b64Char (b % 16 * 4 + c / 64) :: b64Char (c % 64) :: base64Encode rest
  | [a, b] => [b64Char (a / 4), b64Char (a % 4 * 16 + b / 16), b64Char (b % 16 * 4), '=']
  | [a] => [b64Char (a / 4), b64Char (a % 4 * 16), '=', '=']
  | [] => []

/-! ## The handshake key hash (src/server.js lines 21-27) -/

/-- The suffix constant exactly as written in src/server.js line 21 (note the
letter `O` where RFC 6455's GUID has the digit `0`). -/
def KEY_SUFFIX : String := "258EAFA5-E914-47DA-95CA-C5ABODC85B11"

/-- `hashWebSocketKey` from src/server.js lines 23-27:
`base64(sha1(key ++ KEY_SUFFIX))` over the ASCII bytes. -/
def hashWebSocketKey (key : String) : String :=
  String.mk (base64Encode (sha1 (asciiBytes (key ++ KEY_SUFFIX))))

/-- The GUID suffix as the specification (and RFC 6455) states it, with the
digit `0`. -/
def RFC_KEY_SUFFIX : String := "258EAFA5-E914-47DA-95CA-C5AB0DC85B11"

/-- Following the specification's words: the accept value is the base64
encoding of the SHA-1 hash of the client key concatenated with the GUID
suffix `258EAFA5-E914-47DA-95CA-C5AB0DC85B11`. -/
def hashWebSocketKeyRfc (key : String) : String :=
  String.mk (base64Encode (sha1 (asciiBytes (key ++ RFC_KEY_SUFFIX))))

/-! ## Opcodes (src/server.js lines 12-18) -/

namespace OP_CODES

def TEXT : Nat := 1
def BINARY : Nat := 2
def CLOSE : Nat := 8
def PING : Nat := 9
def PONG : Nat := 10

end OP_CODES

/-! ## unmask (src/server.js lines 29-35) -/

/-- The body of the `unmask` loop: byte `i` of the fresh payload buffer is
`maskBytes[i % 4] ^ data[i]`, truncated to a byte by the Buffer element
assignment. -/
def unmaskFrom (maskBytes : List Nat) : Nat → List Nat → List Nat
  | _, [] => []
  | i, b :: rest =>
    ((maskBytes.getD (i % 4) 0) ^^^ b) % 256 :: unmaskFrom maskBytes (i + 1) rest

/-- `unmask(maskBytes, data)` from src/server.js lines 29-35. -/
def unmask (maskBytes data : List Nat) : List Nat :=
  unmaskFrom maskBytes 0 data

/-- The three buffers `unmask` touches, threaded as explicit state: the two
inputs and the freshly allocated output. -/
structure UnmaskBuffers where
  maskBytes : List Nat
  data : List Nat
  payload : List Nat
deriving DecidableEq

/-- One iteration of the `unmask` loop as a state transformer: only the
`payload` buffer is written (`payload[i] = maskBytes[i % 4] ^ data[i]`). -/
def unmaskStep (st : UnmaskBuffers) (i : Nat) : UnmaskBuffers :=
  { st with payload :=
      st.payload.set i (((st.maskBytes.getD (i % 4) 0) ^^^ (st.data.getD i 0)) % 256) }

/-- The whole `unmask` body with all three buffers explicit: allocate
`new Buffer(data.length)` (zero-filled) and run the loop for
`i = 0 .. data.length - 1`. -/
def unmaskRun (maskBytes data : List Nat) : UnmaskBuffers :=
  (List.range data.length).foldl unmaskStep
    ⟨maskBytes, data, List.replicate data.length 0⟩

/-! ## Buffer write primitives (Node Buffer API used by encodeMessage) -/

/-- `buf.writeUInt8(v, off)`: throws a range error unless `v` fits in one
byte. -/
def writeUInt8 (buf : List Nat) (v off : Nat) : Except String (List Nat) :=
  if v < 256 then .ok (buf.set off v) else .error "value out of range"

/-- `buf.writeUInt16BE(v, off)`: two big-endian bytes. -/
def writeUInt16BE (buf : List Nat) (v off : Nat) : Except String (List Nat) :=
  if v < 65536 then .ok ((buf.set off (v / 256)).set (off + 1) (v % 256))
  else .error "value out of range"

/-- `src.copy(dst, targetStart)`: overwrite `dst` from `targetStart` with as
much of `src` as fits. -/
def bufferCopy (src dst : List Nat) (targetStart : Nat) : List Nat :=
  dst.take targetStart ++ src.take (dst.length - targetStart) ++
    dst.drop (targetStart + src.length)

/-! ## encodeMessage (src/server.js lines 42-84) -/

/-- `encodeMessage(opcode, payload)` from src/server.js lines 42-84.
`new Buffer(n)` is zero-filled; every `writeUInt8`/`writeUInt16BE` validates
its value, so the 64-bit length branch, which executes
`buf.writeUInt8(length, 6)` with `length ≥ 65536`, throws. -/
def encodeMessage (opcode : Nat) (payload : List Nat) : Except String (List Nat) :=
  let b1 := 0x80 ||| opcode
  let b2 := 0
  let length := payload.length
  if length < 126 then do
    let buf := List.replicate (payload.length + 2 + 0) 0
    let b2 := b2 ||| length
    let buf ← writeUInt8 buf b1 0
    let buf ← writeUInt8 buf b2 1
    .ok (bufferCopy payload buf 2)
  else if length < 65536 then do
    let buf := List.replicate (payload.length + 2 + 2) 0
    let b2 := b2 ||| 126
    let buf ← writeUInt8 buf b1 0
    let buf ← writeUInt8 buf b2 1
    let buf ← writeUInt16BE buf length 2
    .ok (bufferCopy payload buf 4)
  else do
    let buf := List.replicate (payload.length + 2 + 8) 0
    let b2 := b2 ||| 127
    let buf ← writeUInt8 buf b1 0
    let buf ← writeUInt8 buf b2 1
    let buf ← writeUInt8 buf 0 2
    let buf ← writeUInt8 buf length 6
    .ok (bufferCopy payload buf 10)

/-- Following the specification's words: the header of an encoded frame is
`0x80 | opcode` then the length field — the length inline when `< 126`,
`126` plus a 2-byte big-endian length when `< 65536`, else `127` plus an
8-byte field whose high 4 bytes are zero and whose low 4 bytes are the
length in big-endian. -/
def specFrameHeader (opcode len : Nat) : List Nat :=
  if len < 126 then [0x80 ||| opcode, len]
  else if len < 65536 then [0x80 ||| opcode, 126, len / 256, len % 256]
  else [0x80 ||| opcode, 127, 0, 0, 0, 0,
    len / 2 ^ 24 % 256, len / 2 ^ 16 % 256, len / 2 ^ 8 % 256, len % 256]

/-! ## Frame decoding -/

/-- A decoded frame: fin bit, opcode, unmasked payload. -/
structure Frame where
  fin : Nat
  opcode : Nat
  payload : List Nat
deriving DecidableEq

/-- Modelled from the spec: the repository's `_processBuffer` frame decoder is
referenced at src/server.js line 102 but its definition is not under src/.
Spec section 4.1: byte 0 bit 7 = fin, bits 0-3 = opcode; byte 1 bit 7 = mask
flag, bits 0-6 = length field; length field `126` means the next 2 bytes
(big-endian) are the length, `127` the next 8 bytes (big-endian); a set mask
flag means 4 mask-key bytes follow the length field and the payload is
unmasked by XOR with `maskKey[i % 4]`; too few bytes for the header plus the
declared payload length returns "incomplete" (`none`), consuming nothing;
otherwise the frame and the exact byte count consumed are returned. -/
def tryDecodeFrame (buffer : List Nat) : Option (Frame × Nat) :=
  match buffer with
  | b0 :: b1 :: rest =>
    let fin := b0 / 128
    let opcode := b0 % 16
    let masked := 128 ≤ b1
    let lenField := b1 % 128
    let extBytes := if lenField < 126 then 0 else if lenField = 126 then 2 else 8
    if rest.length < extBytes then none else
    let payloadLen :=
      if lenField < 126 then lenField
      else if lenField = 126 then rest.getD 0 0 * 256 + rest.getD 1 0
      else ((((((rest.getD 0 0 * 256 + rest.getD 1 0) * 256 + rest.getD 2 0) * 256 +
        rest.getD 3 0) * 256 + rest.getD 4 0) * 256 + rest.getD 5 0) * 256 +
        rest.getD 6 0) * 256 + rest.getD 7 0
    let afterLen := rest.drop extBytes
    if masked then
      if 4 + payloadLen ≤ afterLen.length then
        some (⟨fin, opcode, unmask (afterLen.take 4) ((afterLen.drop 4).take payloadLen)⟩,
          2 + extBytes + 4 + payloadLen)
      else none
    else
      if payloadLen ≤ afterLen.length then
        some (⟨fin, opcode, afterLen.take payloadLen⟩, 2 + extBytes + payloadLen)
      else none
  | _ => none

/-- Test harness for the round-trip property: turn an unmasked server frame
into the frame a client would send — set the mask bit of byte 1, insert the
4-byte mask key after the length field, and XOR the payload with the key. -/
def clientMask (key : List Nat) (frame : List Nat) : List Nat :=
  match frame with
  | b0 :: b1 :: rest =>
    let lenField := b1 % 128
    let ext := if lenField < 126 then 0 else if lenField = 126 then 2 else 8
    b0 :: (b1 + 128) :: (rest.take ext ++ key ++ unmask key (rest.drop ext))
  | other => other

/-! ## The connection (src/server.js lines 86-138) -/

/-- The per-connection mutable state the claims depend on: the unprocessed
byte buffer and the closed flag (src/server.js lines 112-114). -/
structure ConnState where
  buffer : List Nat
  closed : Bool
deriving DecidableEq

/-- Modelled from the spec: `_doSend` is called by `send` (src/server.js line
137) but its definition is not under src/.  Spec section 4.2: "The resulting
opcode+payload is passed to the encoder and the resulting bytes written to
the socket. No attempt is made to send if the connection is CLOSED — sending
on a closed connection must fail distinctly."  The returned byte list is what
gets written to the socket. -/
def doSend (conn : ConnState) (opcode : Nat) (payload : List Nat) :
    Except String (List Nat) :=
  if conn.closed then .error "Cannot write to closed connection"
  else encodeMessage opcode payload

/-- A JavaScript value passed to `send`: a Buffer, a string, or anything
else. -/
inductive JSValue where
  | buffer (b : List Nat)
  | str (s : String)
  | other
deriving DecidableEq

/-- UTF-8 encoding of one character. -/
def utf8EncodeChar (c : Char) : List Nat :=
  let n := c.toNat
  if n < 0x80 then [n]
  else if n < 0x800 then [0xC0 + n / 64, 0x80 + n % 64]
  else if n < 0x10000 then [0xE0 + n / 4096, 0x80 + n / 64 % 64, 0x80 + n % 64]
  else [0xF0 + n / 262144, 0x80 + n / 4096 % 64, 0x80 + n / 64 % 64, 0x80 + n % 64]

/-- UTF-8 bytes of a string (`new Buffer(obj, 'utf8')`). -/
def utf8Bytes (s : String) : List Nat :=
  s.data.flatMap utf8EncodeChar

/-- `WebSocketConnection.send` from src/server.js lines 122-138: a Buffer is
sent as BINARY unchanged, a string as TEXT after UTF-8 encoding, anything
else throws `Cannot send object. Must be string or Buffer` before any send
is attempted. -/
def send (conn : ConnState) (obj : JSValue) : Except String (List Nat) :=
  match obj with
  | .buffer b => doSend conn OP_CODES.BINARY b
  | .str s => doSend conn OP_CODES.TEXT (utf8Bytes s)
  | .other => .error "Cannot send object. Must be string or Buffer"

/-- The handshake response written at src/server.js lines 93-97: the exact
contents of the template literal, interpolating the computed key. -/
def handshakeResponse (key : String) : String :=
  "HTTP/1.1 101 Web Socket Protocol Handshake \r\n      Upgrade: WebSocket \r\n      Connection: Upgrade \r\n      sec-websocket-accept: " ++
    key ++ "\n      \r\n\r\n"

/-! ## Socket close/error signals (src/server.js lines 105-110) -/

/-- An underlying socket signal: a `'close'` event (with `had_error`), or an
`'error'` event — for which the constructor registers no handler. -/
inductive SocketSignal where
  | close (had_error : Bool)
  | error
deriving DecidableEq

/-- An event the connection emits to its consumer. -/
inductive ConnEvent where
  | closeEvent (code : Nat)
deriving DecidableEq

/-- The `socket.on('close', ...)` handler (src/server.js lines 105-110) on
the closed flag: if not yet closed, emit `close` with code 1006 and set the
flag; an `'error'` signal has no handler and changes nothing. -/
def handleSignal (closed : Bool) : SocketSignal → Bool × List ConnEvent
  | .close _ => if closed then (closed, []) else (true, [.closeEvent 1006])
  | .error => (closed, [])

/-- Deliver a sequence of socket signals, accumulating emitted events. -/
def runSignals (closed : Bool) : List SocketSignal → Bool × List ConnEvent
  | [] => (closed, [])
  | s :: rest =>
    let r := handleSignal closed s
    let r2 := runSignals r.1 rest
    (r2.1, r.2 ++ r2.2)

/-- The handshake bytes the `WebSocketConnection` constructor writes to the
socket (src/server.js lines 90-97): the template literal with the computed
accept value interpolated. -/
def connectionHandshakeBytes (reqKey : String) : String :=
  handshakeResponse (hashWebSocketKey reqKey)

/-- Split a character list at each CRLF pair, the way an HTTP parser frames
header lines. -/
def splitCRLF : List Char → List (List Char)
  | [] => [[]]
  | '\r' :: '\n' :: rest => [] :: splitCRLF rest
  | c :: rest =>
    match splitCRLF rest with
    | l :: ls => (c :: l) :: ls
    | [] => [[c]]

/-! ## Helper lemmas -/

theorem getD_lt_256 (m : List Nat) (j : Nat) (h : ∀ x ∈ m, x < 256) :
    m.getD j 0 < 256 := by
  induction m generalizing j with
  | nil => simp [List.getD]
  | cons a t ih =>
    cases j with
    | zero => simpa using h a (by simp)
    | succ k => simpa using ih k (fun x hx => h x (by simp [hx]))

theorem unmaskFrom_length (m : List Nat) (i : Nat) (d : List Nat) :
    (unmaskFrom m i d).length = d.length := by
  induction d generalizing i with
  | nil => rfl
  | cons b t ih => simp [unmaskFrom, ih]

theorem unmask_length (m d : List Nat) : (unmask m d).length = d.length :=
  unmaskFrom_length m 0 d

theorem unmaskFrom_lt_256 (m : List Nat) (i : Nat) (d : List Nat) :
    ∀ x ∈ unmaskFrom m i d, x < 256 := by
  induction d generalizing i with
  | nil => simp [unmaskFrom]
  | cons b t ih =>
    intro x hx
    simp only [unmaskFrom, List.mem_cons] at hx
    rcases hx with h | h
    · subst h; exact Nat.mod_lt _ (by norm_num)
    · exact ih (i + 1) x h

theorem unmaskFrom_unmaskFrom (m : List Nat) (hm : ∀ x ∈ m, x < 256)
    (d : List Nat) (i : Nat) (hd : ∀ x ∈ d, x < 256) :
    unmaskFrom m i (unmaskFrom m i d) = d := by
  induction d generalizing i with
  | nil => rfl
  | cons b t ih =>
    have hmi : m.getD (i % 4) 0 < 256 := getD_lt_256 m (i % 4) hm
    have hb : b < 256 := hd b (by simp)
    have hxor : m.getD (i % 4) 0 ^^^ b < 256 := by
      have := Nat.xor_lt_two_pow (n := 8) (by simpa using hmi) (by simpa using hb)
      simpa using this
    simp only [unmaskFrom, List.cons.injEq]
    constructor
    · rw [Nat.mod_eq_of_lt hxor, ← Nat.xor_assoc, Nat.xor_self, Nat.zero_xor,
        Nat.mod_eq_of_lt hb]
    · exact ih (i + 1) (fun x hx => hd x (by simp [hx]))

theorem unmask_unmask (m : List Nat) (d : List Nat) (hm : ∀ x ∈ m, x < 256)
    (hd : ∀ x ∈ d, x < 256) : unmask m (unmask m d) = d :=
  unmaskFrom_unmaskFrom m hm d 0 hd

theorem encodeMessage_small (op : Nat) (payload : List Nat)
    (hop : 128 ||| op < 256) (hlen : payload.length < 126) :
    encodeMessage op payload = .ok ((128 ||| op) :: payload.length :: payload) := by
  have h256 : payload.length < 256 := by omega
  have hrep : List.replicate (payload.length + 2 + 0) (0 : Nat) =
      0 :: 0 :: List.replicate payload.length 0 := by
    rw [show payload.length + 2 + 0 = 2 + payload.length by omega, List.replicate_add]
    rfl
  simp only [encodeMessage, if_pos hlen, writeUInt8, if_pos hop, hrep,
    Nat.zero_or, if_pos h256, bufferCopy, Except.bind, List.set_cons_zero,
    List.set_cons_succ]
  simp only [bind, Except.bind, List.set_cons_zero, List.set_cons_succ,
    List.length_cons, List.length_replicate]
  simp only [List.take_succ_cons, List.take_zero, List.drop_succ_cons,
    show payload.length + 1 + 1 - 2 = payload.length by omega,
    List.take_length]
  rw [List.drop_eq_nil_of_le (by simp; omega)]
  simp

theorem encodeMessage_medium (op : Nat) (payload : List Nat)
    (hop : 128 ||| op < 256) (hge : 126 ≤ payload.length)
    (hlt : payload.length < 65536) :
    encodeMessage op payload = .ok ((128 ||| op) :: 126 ::
      payload.length / 256 :: payload.length % 256 :: payload) := by
  have hrep : List.replicate (payload.length + 2 + 2) (0 : Nat) =
      0 :: 0 :: 0 :: 0 :: List.replicate payload.length 0 := by
    rw [show payload.length + 2 + 2 = 4 + payload.length by omega, List.replicate_add]
    rfl
  simp only [encodeMessage, if_neg (by omega : ¬ payload.length < 126), if_pos hlt,
    writeUInt8, if_pos hop, hrep, Nat.zero_or,
    if_pos (show (126 : Nat) < 256 by norm_num), writeUInt16BE, bufferCopy]
  simp only [bind, Except.bind, List.set_cons_zero, List.set_cons_succ,
    List.length_cons, List.length_replicate, if_pos hlt]
  simp only [List.take_succ_cons, List.take_zero, List.drop_succ_cons,
    show payload.length + 1 + 1 + 1 + 1 - 4 = payload.length by omega,
    List.take_length]
  rw [List.drop_eq_nil_of_le (by simp; omega)]
  simp

theorem encodeMessage_error (op : Nat) (payload : List Nat)
    (hop : 128 ||| op < 256) (hlen : 65536 <= payload.length) :
    encodeMessage op payload = .error "value out of range" := by
  simp only [encodeMessage, if_neg (by omega : ¬ payload.length < 126),
    if_neg (by omega : ¬ payload.length < 65536), writeUInt8, if_pos hop,
    Nat.zero_or, if_pos (show (127 : Nat) < 256 by norm_num),
    if_pos (show (0 : Nat) < 256 by norm_num),
    if_neg (by omega : ¬ payload.length < 256)]
  simp [bind, Except.bind]

theorem roundtrip_small (b0 : Nat) (key payload : List Nat) (hkey : key.length = 4)
    (hkb : ∀ x ∈ key, x < 256) (hpb : ∀ x ∈ payload, x < 256)
    (hlen : payload.length < 126) :
    tryDecodeFrame (clientMask key (b0 :: payload.length :: payload)) =
      some (⟨b0 / 128, b0 % 16, payload⟩, 2 + 0 + 4 + payload.length) := by
  have hmod : payload.length % 128 = payload.length := Nat.mod_eq_of_lt (by omega)
  have hulen : (unmask key payload).length = payload.length := unmask_length key payload
  simp only [clientMask, hmod, if_pos hlen, List.take_zero, List.drop_zero,
    List.nil_append]
  have hb1mod : (payload.length + 128) % 128 = payload.length := by omega
  have hlen4 : (key ++ unmask key payload).length = 4 + payload.length := by
    simp [hkey, hulen]
  simp only [tryDecodeFrame, hb1mod, if_pos hlen, hlen4,
    if_neg (Nat.not_lt_zero _), List.drop_zero,
    if_pos (Nat.le_add_left 128 payload.length),
    if_pos (Nat.le_refl (4 + payload.length)), decide_eq_true_eq]
  rw [show (4 : Nat) = key.length from hkey.symm, List.take_left, List.drop_left,
    ← hulen, List.take_length, unmask_unmask key payload hkb hpb, hkey]

theorem roundtrip_medium (b0 : Nat) (key payload : List Nat) (hkey : key.length = 4)
    (hkb : ∀ x ∈ key, x < 256) (hpb : ∀ x ∈ payload, x < 256) :
    tryDecodeFrame (clientMask key (b0 :: 126 ::
        payload.length / 256 :: payload.length % 256 :: payload)) =
      some (⟨b0 / 128, b0 % 16, payload⟩, 2 + 2 + 4 + payload.length) := by
  have hulen : (unmask key payload).length = payload.length := unmask_length key payload
  have hdm : payload.length / 256 * 256 + payload.length % 256 = payload.length := by
    omega
  simp only [clientMask]
  norm_num
  simp only [tryDecodeFrame]
  norm_num [hulen, hkey, hdm]
  rw [← hulen, List.take_length, unmask_unmask key payload hkb hpb]

theorem encodeMessage_ok_format (op : Nat) (payload : List Nat)
    (hop : 128 ||| op < 256) (hlen : payload.length < 65536) :
    encodeMessage op payload = .ok (specFrameHeader op payload.length ++ payload) := by
  by_cases h : payload.length < 126
  · rw [encodeMessage_small op payload hop h]
    simp [specFrameHeader, if_pos h]
  · rw [encodeMessage_medium op payload hop (by omega) hlen]
    simp [specFrameHeader, if_neg h, if_pos hlen]

theorem send_open_buffer (conn : ConnState) (b : List Nat)
    (hc : conn.closed = false) :
    send conn (.buffer b) = encodeMessage OP_CODES.BINARY b := by
  simp [send, doSend, hc]

theorem runSignals_closed (sigs : List SocketSignal) :
    runSignals true sigs = (true, []) := by
  induction sigs with
  | nil => rfl
  | cons s rest ih => cases s <;> simp [runSignals, handleSignal, ih]

/-! ## The claims -/

set_option maxRecDepth 100000 in
/-- Claim C1 (code bug): the claim states the accept value is the base64
encoding of SHA-1 of the key concatenated with the GUID
`258EAFA5-E914-47DA-95CA-C5AB0DC85B11`, equal to the RFC 6455 example value
for the sample key.  The code's `KEY_SUFFIX` misspells the GUID (letter `O`
for the digit `0`), so `hashWebSocketKey` computes a different value for the
sample key, while the specification's formula (`hashWebSocketKeyRfc`) yields
exactly the RFC example value. -/
theorem claim_C1_guid_typo :
    hashWebSocketKey "dGhlIHNhbXBsZSBub25jZQ==" = "kPwvuHQ2uC+Mb+KxZ13S5SPYvUw=" ∧
    hashWebSocketKeyRfc "dGhlIHNhbXBsZSBub25jZQ==" = "s3pPLMBiTxaQ9kYGzzhZRbK+xOo=" ∧
    hashWebSocketKey "dGhlIHNhbXBsZSBub25jZQ==" ≠ "s3pPLMBiTxaQ9kYGzzhZRbK+xOo=" :=
  ⟨by rfl, by rfl, by decide⟩

/-- Claim C2 (amended to payloads shorter than 65536 bytes): for each of the
five recognized opcodes and any payload of length < 65536, the encoded frame
is exactly the header followed by the raw payload, the first header byte is
`0x80 | opcode` (fin bit set), and the second header byte has the mask bit
clear; the length is inline when < 126, else `126` plus a 2-byte big-endian
length. -/
theorem claim_C2_frame_format (op : Nat) (payload : List Nat)
    (hop : op = OP_CODES.TEXT ∨ op = OP_CODES.BINARY ∨ op = OP_CODES.CLOSE ∨
      op = OP_CODES.PING ∨ op = OP_CODES.PONG)
    (hlen : payload.length < 65536) :
    encodeMessage op payload = .ok (specFrameHeader op payload.length ++ payload) ∧
    (specFrameHeader op payload.length).getD 0 0 = 128 ||| op ∧
    128 ≤ (specFrameHeader op payload.length).getD 0 0 ∧
    (specFrameHeader op payload.length).getD 1 0 < 128 := by
  have hop2 : 128 ||| op < 256 := by
    rcases hop with h | h | h | h | h <;> subst h <;> decide
  have h128 : 128 ≤ 128 ||| op := by
    rcases hop with h | h | h | h | h <;> subst h <;> decide
  refine ⟨encodeMessage_ok_format op payload hop2 hlen, ?_, ?_, ?_⟩
  · by_cases h : payload.length < 126 <;> simp [specFrameHeader, h, hlen]
  · by_cases h : payload.length < 126
    · simpa [specFrameHeader, h] using h128
    · simpa [specFrameHeader, h, hlen] using h128
  · by_cases h : payload.length < 126 <;> simp [specFrameHeader, h, hlen] <;> omega

/-- Witness for claim C2's theorem at opcode TEXT and payload `[65]`. -/
theorem claim_C2_witness :
    ((1 : Nat) = OP_CODES.TEXT ∨ (1 : Nat) = OP_CODES.BINARY ∨
      (1 : Nat) = OP_CODES.CLOSE ∨ (1 : Nat) = OP_CODES.PING ∨
      (1 : Nat) = OP_CODES.PONG) ∧
    ([65] : List Nat).length < 65536 ∧
    (encodeMessage 1 [65] = .ok (specFrameHeader 1 ([65] : List Nat).length ++ [65]) ∧
      (specFrameHeader 1 ([65] : List Nat).length).getD 0 0 = 128 ||| 1 ∧
      128 ≤ (specFrameHeader 1 ([65] : List Nat).length).getD 0 0 ∧
      (specFrameHeader 1 ([65] : List Nat).length).getD 1 0 < 128) :=
  ⟨Or.inl rfl, by decide, claim_C2_frame_format 1 [65] (Or.inl rfl) (by decide)⟩

/-- Counterexample to claim C2 as stated: for a payload of 65536 bytes no
frame is produced at all — the encoder's 64-bit length branch throws a range
error from `buf.writeUInt8(length, 6)`. -/
theorem claim_C2_counterexample :
    encodeMessage 2 (List.replicate 65536 7) = .error "value out of range" ∧
    (encodeMessage 2 (List.replicate 65536 7)).toOption = none := by
  have h := encodeMessage_error 2 (List.replicate 65536 7) (by decide)
    (by rw [List.length_replicate])
  exact ⟨h, by rw [h]; rfl⟩

/-- Claim C3 (amended to drop length 65536): for opcode TEXT or BINARY, a
4-byte mask key, and any byte payload whose length is 0, 1, 125, 126 or
65535, decoding the client-masked encoding returns exactly the original
opcode and payload. -/
theorem claim_C3_roundtrip (op : Nat) (key payload f : List Nat)
    (hop : op = OP_CODES.TEXT ∨ op = OP_CODES.BINARY)
    (hkey : key.length = 4) (hkb : ∀ x ∈ key, x < 256)
    (hpb : ∀ x ∈ payload, x < 256)
    (hlen : payload.length ∈ [0, 1, 125, 126, 65535])
    (hf : encodeMessage op payload = .ok f) :
    (tryDecodeFrame (clientMask key f)).map (fun r => (r.1.opcode, r.1.payload)) =
      some (op, payload) := by
  have hlt : payload.length < 65536 := by
    simp only [List.mem_cons, List.not_mem_nil, or_false] at hlen
    omega
  have hop2 : 128 ||| op < 256 := by rcases hop with h | h <;> subst h <;> decide
  have hmod : (128 ||| op) % 16 = op := by rcases hop with h | h <;> subst h <;> decide
  by_cases h : payload.length < 126
  · rw [encodeMessage_small op payload hop2 h] at hf
    injection hf with hf
    rw [← hf, roundtrip_small (128 ||| op) key payload hkey hkb hpb h]
    simp [hmod]
  · rw [encodeMessage_medium op payload hop2 (by omega) hlt] at hf
    injection hf with hf
    rw [← hf, roundtrip_medium (128 ||| op) key payload hkey hkb hpb]
    simp [hmod]

/-- Witness for claim C3's theorem at opcode TEXT, key `[1,2,3,4]` and
payload `[65]`. -/
theorem claim_C3_witness :
    ((1 : Nat) = OP_CODES.TEXT ∨ (1 : Nat) = OP_CODES.BINARY) ∧
    ([1, 2, 3, 4] : List Nat).length = 4 ∧
    (∀ x ∈ ([1, 2, 3, 4] : List Nat), x < 256) ∧
    (∀ x ∈ ([65] : List Nat), x < 256) ∧
    ([65] : List Nat).length ∈ [0, 1, 125, 126, 65535] ∧
    encodeMessage 1 [65] = .ok [129, 1, 65] ∧
    (tryDecodeFrame (clientMask [1, 2, 3, 4] [129, 1, 65])).map
      (fun r => (r.1.opcode, r.1.payload)) = some (1, [65]) :=
  ⟨Or.inl rfl, by decide, by decide, by decide, by decide, by rfl,
    claim_C3_roundtrip 1 [1, 2, 3, 4] [65] [129, 1, 65] (Or.inl rfl) (by decide)
      (by decide) (by decide) (by decide) (by rfl)⟩

/-- Counterexample to claim C3 as stated: at payload length 65536 the encoder
throws, so the round trip yields nothing rather than the original payload. -/
theorem claim_C3_counterexample :
    encodeMessage 1 (List.replicate 65536 65) = .error "value out of range" ∧
    (encodeMessage 1 (List.replicate 65536 65)).toOption.map
      (fun f => tryDecodeFrame (clientMask [1, 2, 3, 4] f)) = none := by
  have h := encodeMessage_error 1 (List.replicate 65536 65) (by decide)
    (by rw [List.length_replicate])
  exact ⟨h, by rw [h]; rfl⟩

/-- Claim C4: for a 4-byte mask key and any byte payload, `unmask` is an
involution — unmasking twice with the same key returns the original data. -/
theorem claim_C4_unmask_involution (maskBytes data : List Nat)
    (hlen : maskBytes.length = 4) (hm : ∀ x ∈ maskBytes, x < 256)
    (hd : ∀ x ∈ data, x < 256) :
    unmask maskBytes (unmask maskBytes data) = data :=
  unmask_unmask maskBytes data hm hd

/-- Witness for claim C4's theorem at key `[7,3,255,0]` and data
`[10,20,30,40,50]`. -/
theorem claim_C4_witness :
    ([7, 3, 255, 0] : List Nat).length = 4 ∧
    (∀ x ∈ ([7, 3, 255, 0] : List Nat), x < 256) ∧
    (∀ x ∈ ([10, 20, 30, 40, 50] : List Nat), x < 256) ∧
    unmask [7, 3, 255, 0] (unmask [7, 3, 255, 0] [10, 20, 30, 40, 50]) =
      [10, 20, 30, 40, 50] :=
  ⟨by decide, by decide, by decide,
    claim_C4_unmask_involution [7, 3, 255, 0] [10, 20, 30, 40, 50] (by decide)
      (by decide) (by decide)⟩

/-- Claim C5 (code bug): for a payload longer than 65535 bytes the claim
(and the code's own comment) says the frame carries length field 127 and an
8-byte extended length whose high 4 bytes are zero and low 4 bytes are the
length big-endian (`specFrameHeader`); the code instead throws a range error
from `buf.writeUInt8(length, 6)` and produces no frame. -/
theorem claim_C5_long_length_fails :
    encodeMessage 1 (List.replicate 65536 0) = .error "value out of range" ∧
    specFrameHeader 1 65536 = [129, 127, 0, 0, 0, 0, 0, 1, 0, 0] :=
  ⟨encodeMessage_error 1 (List.replicate 65536 0) (by decide)
    (by rw [List.length_replicate]), by decide⟩

/-- Claim C6: on a CLOSED connection `send` fails with a distinct error and
writes no bytes: the closed-connection error for Buffer and string payloads,
and the invalid-argument error (raised before any send attempt) for anything
else. -/
theorem claim_C6_send_closed_fails (conn : ConnState) (obj : JSValue)
    (h : conn.closed = true) :
    send conn obj = .error (if obj = .other
      then "Cannot send object. Must be string or Buffer"
      else "Cannot write to closed connection") := by
  cases obj <;> simp [send, doSend, h]

/-- Witness for claim C6's theorem on a closed connection and a string
payload. -/
theorem claim_C6_witness :
    (⟨[], true⟩ : ConnState).closed = true ∧
    send ⟨[], true⟩ (.str "x") = .error (if (JSValue.str "x") = .other
      then "Cannot send object. Must be string or Buffer"
      else "Cannot write to closed connection") :=
  ⟨rfl, claim_C6_send_closed_fails ⟨[], true⟩ (.str "x") rfl⟩

/-- Claim C7: over any sequence of socket close/error signals, a connection
starting with `closed = false` emits at most one close event, and once the
closed flag is true it stays true and nothing more is emitted. -/
theorem claim_C7_close_once (sigs : List SocketSignal) :
    (runSignals false sigs).2.length ≤ 1 ∧
    (runSignals true sigs).1 = true ∧ (runSignals true sigs).2 = [] := by
  refine ⟨?_, by rw [runSignals_closed], by rw [runSignals_closed]⟩
  induction sigs with
  | nil => simp [runSignals]
  | cons s rest ih =>
    cases s with
    | close he => simp [runSignals, handleSignal, runSignals_closed]
    | error => simpa [runSignals, handleSignal] using ih

/-- Claim C8 (amended to payloads whose byte length is at most 65535): on an
open connection, `send` frames such a Buffer as BINARY with the payload
unchanged, such a string as TEXT after UTF-8 encoding, and fails
synchronously with the invalid-argument error for any other value, sending
nothing.  For longer payloads the encoder throws instead of framing (the
counterexample below), so the original unrestricted claim is false. -/
theorem claim_C8_send_typing (conn : ConnState) (b : List Nat) (s : String)
    (hc : conn.closed = false) (hb : b.length < 65536)
    (hs : (utf8Bytes s).length < 65536) :
    send conn (.buffer b) = .ok (specFrameHeader OP_CODES.BINARY b.length ++ b) ∧
    send conn (.str s) =
      .ok (specFrameHeader OP_CODES.TEXT (utf8Bytes s).length ++ utf8Bytes s) ∧
    send conn .other = .error "Cannot send object. Must be string or Buffer" := by
  refine ⟨?_, ?_, rfl⟩
  · simp [send, doSend, hc, encodeMessage_ok_format OP_CODES.BINARY b (by decide) hb]
  · simp [send, doSend, hc,
      encodeMessage_ok_format OP_CODES.TEXT (utf8Bytes s) (by decide) hs]

/-- Witness for claim C8's theorem on an open connection, Buffer `[5]` and
string `"A"`. -/
theorem claim_C8_witness :
    (⟨[], false⟩ : ConnState).closed = false ∧
    ([5] : List Nat).length < 65536 ∧
    (utf8Bytes "A").length < 65536 ∧
    (send ⟨[], false⟩ (.buffer [5]) =
        .ok (specFrameHeader OP_CODES.BINARY ([5] : List Nat).length ++ [5]) ∧
      send ⟨[], false⟩ (.str "A") =
        .ok (specFrameHeader OP_CODES.TEXT (utf8Bytes "A").length ++ utf8Bytes "A") ∧
      send ⟨[], false⟩ .other = .error "Cannot send object. Must be string or Buffer") :=
  ⟨rfl, by decide, by decide,
    claim_C8_send_typing ⟨[], false⟩ [5] "A" rfl (by decide) (by decide)⟩

/-- Counterexample to claim C8 as stated: a 65536-byte Buffer on an open
connection is not framed with opcode BINARY — `send` propagates the
encoder's range error and no bytes are produced. -/
theorem claim_C8_counterexample :
    send ⟨[], false⟩ (.buffer (List.replicate 65536 5)) =
      .error "value out of range" ∧
    (send ⟨[], false⟩ (.buffer (List.replicate 65536 5))).toOption = none := by
  have h := encodeMessage_error OP_CODES.BINARY (List.replicate 65536 5) (by decide)
    (by rw [List.length_replicate])
  have hs : send ⟨[], false⟩ (.buffer (List.replicate 65536 5)) =
      .error "value out of range" := by
    rw [send_open_buffer ⟨[], false⟩ (List.replicate 65536 5) rfl, h]
  exact ⟨hs, by rw [hs]; rfl⟩

set_option maxRecDepth 100000 in
/-- Claim C9 (code bug): the handshake bytes written at connection setup do
carry the computed accept value, but the response is not a well-formed
CRLF-terminated header block: splitting the written string at CRLF pairs
shows every header line carrying leading spaces (HTTP line folding) and the
accept header glued to a whitespace continuation by a bare LF instead of
being CRLF-terminated. -/
theorem claim_C9_handshake_malformed :
    splitCRLF (connectionHandshakeBytes "dGhlIHNhbXBsZSBub25jZQ==").data =
      ["HTTP/1.1 101 Web Socket Protocol Handshake ".data,
       "      Upgrade: WebSocket ".data,
       "      Connection: Upgrade ".data,
       "      sec-websocket-accept: kPwvuHQ2uC+Mb+KxZ13S5SPYvUw=\n      ".data,
       [], []] := by rfl

/-- Claim C10: the `unmask` loop with all three buffers threaded as state
returns the mask-key and data buffers unchanged and a freshly allocated
payload buffer of exactly the data's length. -/
theorem claim_C10_unmask_buffers (maskBytes data : List Nat) :
    (unmaskRun maskBytes data).maskBytes = maskBytes ∧
    (unmaskRun maskBytes data).data = data ∧
    (unmaskRun maskBytes data).payload.length = data.length := by
  have key : ∀ (l : List Nat) (st : UnmaskBuffers),
      (l.foldl unmaskStep st).maskBytes = st.maskBytes ∧
      (l.foldl unmaskStep st).data = st.data ∧
      (l.foldl unmaskStep st).payload.length = st.payload.length := by
    intro l
    induction l with
    | nil => intro st; exact ⟨rfl, rfl, rfl⟩
    | cons i rest ih =>
      intro st
      have h := ih (unmaskStep st i)
      simpa [unmaskStep, List.length_set] using h
  have h := key (List.range data.length) ⟨maskBytes, data, List.replicate data.length 0⟩
  simpa [unmaskRun] using h

end WSServer